import Mathlib

set_option maxRecDepth 100000

/-!
Shallow embedding of the conversational turn-handling logic of the
real-estate voice bot (files `app/main.py`, `app/voice2.py`,
`app/property_rag.py`, `app/twilio_webhook.py`).

Texts are modelled as `List Char`; Python's `str.lower` is `Char.toLower`
mapped over the characters, `str.strip` drops whitespace at both ends,
`a in b` is `isSubstrOf`, and `str.replace` is `replaceAll`.
Sessions are explicit state threaded through the `/process` handlers.
-/

/-- Characters of a string literal, the text model used throughout. -/
def s2l (s : String) : List Char := s.data

/-- Python `str.lower()` (ASCII behaviour). -/
def pyLower (l : List Char) : List Char := l.map Char.toLower

/-- Python `str.strip()`: drop whitespace from both ends. -/
def pyStrip (l : List Char) : List Char :=
  ((l.dropWhile Char.isWhitespace).reverse.dropWhile Char.isWhitespace).reverse

/-- Python `pat in text` on strings: substring containment. -/
def isSubstrOf (pat : List Char) : List Char → Bool
  | [] => decide (pat = [])
  | c :: rest => pat.isPrefixOf (c :: rest) || isSubstrOf pat rest

/-- Python `str.replace(pat, rep)` with explicit fuel so the recursion is
structural; each step consumes at least one character, so fuel equal to the
text's length (as supplied by `replaceAll`) is never exhausted. -/
def replaceAllFuel (pat rep : List Char) : Nat → List Char → List Char
  | _, [] => []
  | 0, l => l
  | fuel + 1, c :: rest =>
    if pat.isPrefixOf (c :: rest) ∧ 0 < pat.length then
      rep ++ replaceAllFuel pat rep fuel (List.drop (pat.length - 1) rest)
    else
      c :: replaceAllFuel pat rep fuel rest

/-- Python `str.replace(pat, rep)`: replace every non-overlapping occurrence
of `pat`, scanning left to right (for a non-empty `pat`). -/
def replaceAll (pat rep l : List Char) : List Char :=
  replaceAllFuel pat rep l.length l

/-- Helper for Python `str.split()`: accumulate the current word (reversed)
while scanning. -/
def splitWsAux : List Char → List Char → List (List Char)
  | [], acc => if acc.isEmpty then [] else [acc.reverse]
  | c :: rest, acc =>
    if c.isWhitespace then
      if acc.isEmpty then splitWsAux rest [] else acc.reverse :: splitWsAux rest []
    else splitWsAux rest (c :: acc)

/-- Python `" ".join(text.split())`: collapse whitespace runs to single
spaces and trim the ends (used by `clean_text_for_tts` in `app/main.py`). -/
def normalizeWs (l : List Char) : List Char :=
  List.intercalate [' '] (splitWsAux l [])

/-- `clean_text_for_tts` from `app/main.py`: expand "AED" and "ROI", then
normalize whitespace. -/
def clean_text_for_tts (text : List Char) : List Char :=
  normalizeWs (replaceAll (s2l "ROI") (s2l "return on investment")
    (replaceAll (s2l "AED") (s2l "Arab Emirates Dirham") text))

/-! ### `app/voice2.py`: `OptimizedVoiceAssistant` -/

/-- Mutable per-call state of `OptimizedVoiceAssistant` (`app/voice2.py`):
the two strength counters.  `client_data` is a fixed dictionary and is
inlined into the strings below. -/
structure Session where
  confirm_count : Nat
  reject_count : Nat
deriving DecidableEq

/-- Confirm keywords of `handle_intents` (`app/voice2.py` line 25). -/
def confirmKeywords : List (List Char) :=
  [s2l "yes", s2l "okay", s2l "interested", s2l "sure", s2l "agree"]

/-- Reject keywords of `handle_intents` (`app/voice2.py` line 27). -/
def rejectKeywords : List (List Char) :=
  [s2l "no", s2l "not interested", s2l "stop", s2l "never", s2l "leave me"]

/-- `OptimizedVoiceAssistant.handle_intents` (`app/voice2.py` lines 21-30):
lower-case, then keyword containment, confirm checked first. -/
def handle_intents (text : List Char) : List Char :=
  let t := pyLower text
  if confirmKeywords.any (fun w => isSubstrOf w t) then s2l "strong_confirm"
  else if rejectKeywords.any (fun w => isSubstrOf w t) then s2l "strong_reject"
  else s2l "neutral"

/-- `OptimizedVoiceAssistant.generate_fast_response` (`app/voice2.py` lines
32-41); `client_data['location']` is the fixed string "Dubai". -/
def generate_fast_response (user_input intent : List Char) : List Char :=
  if intent = s2l "neutral" then
    s2l "Thanks for sharing. Could you tell me more about your preferences in Dubai?"
  else if intent = s2l "strong_confirm" then
    s2l "Perfect. I’ll prepare the next steps right away."
  else if intent = s2l "strong_reject" then
    s2l "Understood. I’ll close this discussion."
  else
    s2l "I see. Let's continue our conversation."

/-! ### `app/main.py`: session store and the `/process` handler -/

/-- The in-memory `_sessions` dict of `app/main.py` (call sid to bot state). -/
abbrev Store := List (String × Session)

/-- `get_session` (`app/main.py` lines 66-78) in the in-memory configuration
(no `REDIS_URL`): dictionary lookup, explicit absence as `none`. -/
def get_session (store : Store) (call_sid : String) : Option Session :=
  (store.find? (fun p => p.1 = call_sid)).map Prod.snd

/-- `clear_session` (`app/main.py` lines 87-95): delete the sid's entry. -/
def clear_session (store : Store) (call_sid : String) : Store :=
  store.filter (fun p => ¬ p.1 = call_sid)

/-- `set_session` (`app/main.py` lines 80-85): store the bot under the sid. -/
def set_session (store : Store) (call_sid : String) (bot : Session) : Store :=
  (call_sid, bot) :: clear_session store call_sid

/-- Outcome of one of the two concurrently awaited operations in `/process`:
it completes within its `asyncio.wait_for` timeout, times out, or raises. -/
inductive FOutcome
  | completes
  | timesOut
  | fails
deriving DecidableEq

/-- `FALLBACK_REPLY` (`app/main.py` lines 61-63). -/
def FALLBACK_REPLY : List Char :=
  s2l "I'm still pulling up the latest details. Could you share a bit more while I check?"

/-- The say text of the session-expired branch (`app/main.py` line 172). -/
def sessionExpiredSay : List Char :=
  s2l "Session expired. Please call again or request a callback."

/-- The say text of the empty-utterance branch (`app/main.py` line 181). -/
def repeatSay : List Char := s2l "Could you repeat that?"

/-- The strong-confirm closing reply (`app/main.py` line 196). -/
def confirmCloseSay : List Char :=
  s2l "Perfect! I'll prepare detailed ROI projections and our senior advisor will contact you within 24 hours. Goodbye!"

/-- The strong-reject closing reply (`app/main.py` line 204). -/
def rejectCloseSay : List Char :=
  s2l "I understand. If anything changes, contact Baaz Landmark. Have a nice day!"

/-- The generic error-path say text (`app/main.py` line 260). -/
def techIssueSay : List Char :=
  s2l "Technical issue. Connecting you to an agent."

/-- The combination policy of `/process` (`app/main.py` lines 234-242):
Python truthiness on `main_response` and `rag_context`
(`None` and the empty string are falsy). -/
def combineReply (main_response rag_context : Option (List Char)) : List Char :=
  match main_response with
  | some (c :: m) =>
    match rag_context with
    | some (d :: r) => (c :: m) ++ ' ' :: d :: r
    | _ => c :: m
  | _ => FALLBACK_REPLY

/-- The truncation step of `/process` (`app/main.py` lines 244-245):
`if len(reply) > 300: reply = reply[:297] + "."`. -/
def truncateReply (reply : List Char) : List Char :=
  if 300 < reply.length then reply.take 297 ++ ['.'] else reply

/-- The spoken text plus the continuation flag of a `/process` response:
`continues` is true exactly when the TwiML carries a `Gather` back to
`/process` instead of a `Hangup`. -/
structure TurnResult where
  say : List Char
  continues : Bool
deriving DecidableEq

/-- Everything observable at the end of one `/process` request: the response,
the session dictionary, and the bot object the handler held (it is mutated in
place even when the session entry is then deleted). -/
structure ProcOut where
  result : TurnResult
  store : Store
  bot : Option Session
deriving DecidableEq

/-- The `/process` handler of `app/main.py` (lines 159-263) in the in-memory
configuration.  `genOutcome` is the fate of awaiting
`bot.generate_fast_response` under its 4.0s timeout, `ragOutcome` that of
`rag.query_knowledge_base` under its 2.0s timeout, and `ragText` the value the
lookup returns when it completes.  A raising future propagates past the inner
`except asyncio.TimeoutError` into the outer `except`, which says the
technical-issue line, hangs up and clears the session; classification and the
template generator are total, so only the two awaited futures can raise. -/
def mainProcess (store : Store) (call_sid : String) (speechResult : Option (List Char))
    (genOutcome ragOutcome : FOutcome) (ragText : List Char) : ProcOut :=
  match get_session store call_sid with
  | none => ⟨⟨sessionExpiredSay, false⟩, store, none⟩
  | some sess =>
    let user_input := pyLower (pyStrip (speechResult.getD []))
    if user_input = [] then
      ⟨⟨repeatSay, true⟩, store, some sess⟩
    else
      let intent := handle_intents user_input
      if intent = s2l "strong_confirm" then
        ⟨⟨clean_text_for_tts confirmCloseSay, false⟩, clear_session store call_sid,
          some { sess with confirm_count := sess.confirm_count + 2 }⟩
      else if intent = s2l "strong_reject" then
        ⟨⟨clean_text_for_tts rejectCloseSay, false⟩, clear_session store call_sid,
          some { sess with reject_count := sess.reject_count + 2 }⟩
      else if genOutcome = FOutcome.fails then
        ⟨⟨techIssueSay, false⟩, clear_session store call_sid, some sess⟩
      else if ragOutcome = FOutcome.fails then
        ⟨⟨techIssueSay, false⟩, clear_session store call_sid, some sess⟩
      else
        let main_response : Option (List Char) :=
          if genOutcome = FOutcome.completes then
            some (generate_fast_response user_input intent) else none
        let rag_context : Option (List Char) :=
          if ragOutcome = FOutcome.completes then some ragText else none
        let reply := truncateReply (combineReply main_response rag_context)
        ⟨⟨clean_text_for_tts reply, true⟩, store, some sess⟩

example : handle_intents (s2l "Yes, please") = s2l "strong_confirm" := by decide
example : handle_intents (s2l "not interested") = s2l "strong_confirm" := by decide
example : handle_intents (s2l "Never!") = s2l "strong_reject" := by decide
example : handle_intents (s2l "hello there") = s2l "neutral" := by decide
example : pyStrip (s2l "  hi  ") = s2l "hi" := by decide
example : clean_text_for_tts (s2l "good  ROI here") =
    s2l "good return on investment here" := by decide

example :
    (mainProcess [("CA1", ⟨0, 0⟩)] "CA1" (some (s2l "Tell me about ROI"))
      FOutcome.timesOut FOutcome.completes (s2l "ctx")).result.say = FALLBACK_REPLY := by decide

example :
    (mainProcess [("CA1", ⟨0, 0⟩)] "CA1" (some (s2l "hello"))
      FOutcome.completes FOutcome.timesOut (s2l "ctx")).result.say =
      s2l "Thanks for sharing. Could you tell me more about your preferences in Dubai?" := by decide

/-! ### `app/twilio_webhook.py`: `ReliableVoiceAssistant` and its routes -/

/-- Mutable per-call state of `ReliableVoiceAssistant`
(`app/twilio_webhook.py` lines 29-41); `client_data` is a fixed dictionary
(bought 1,200,000, now 3,300,000, year 2020), so `profit = 2,100,000` and
`roi = 175.0`, inlined into the formatted strings below. -/
structure RBot where
  exchange_count : Nat
  confirmed : Bool
  rejected : Bool
deriving DecidableEq

/-- Positive keywords of `get_quick_response` (`twilio_webhook.py` line 50). -/
def rbPositiveWords : List (List Char) :=
  [s2l "yes", s2l "interested", s2l "tell me", s2l "go ahead", s2l "sure", s2l "okay"]

/-- Negative keywords of `get_quick_response` (`twilio_webhook.py` line 59). -/
def rbNegativeWords : List (List Char) :=
  [s2l "no", s2l "not interested", s2l "busy", s2l "later", s2l "don't want"]

/-- Question keywords of `get_quick_response` (`twilio_webhook.py` line 70). -/
def rbQuestionWords : List (List Char) :=
  [s2l "how", s2l "what", s2l "where", s2l "when", s2l "why"]

/-- The positive `responses` list (`twilio_webhook.py` lines 51-55), with the
f-string fields rendered from the fixed `client_data`. -/
def rbPositiveResponses : List (List Char) :=
  [s2l "Excellent! Your property gained 2,100,000 dirhams since 2020. That's 175 percent return. The timing is perfect to maximize this further.",
   s2l "Great! With Dubai's market momentum, smart investors are repositioning now. Would you like to hear about strategic options that could double your returns?",
   s2l "Perfect timing! Your villa's performance shows you make smart investment decisions. Let me share how successful investors are leveraging this market cycle."]

/-- The negative `responses` list (`twilio_webhook.py` lines 60-64). -/
def rbNegativeResponses : List (List Char) :=
  [s2l "I understand you're busy. Just consider - your property doubled in value. What if it could double again through smart repositioning? Just 2 minutes of your time?",
   s2l "No problem. But before I go - would you rather lock in your 2.1 million dirham profit now, or risk waiting through the summer slowdown? Quick question for you.",
   s2l "I respect that. Market timing is personal. If your situation changes, our senior advisors are always available. Have a great day!"]

/-- The question-branch reply (`twilio_webhook.py` line 71). -/
def rbQuestionReply : List Char :=
  s2l "Great question! The strategy is simple - sell your villa at peak value, then acquire 2-3 apartments in high-growth areas. This multiplies your rental income and capital appreciation. Interested in the specifics?"

/-- The default-branch reply (`twilio_webhook.py` line 74), `roi:.0f` = 175. -/
def rbDefaultReply : List Char :=
  s2l "Based on your excellent 175 percent return, you're clearly a smart investor. The question is - are you ready to potentially double these returns through strategic repositioning?"

/-- `ReliableVoiceAssistant.get_quick_response` (`twilio_webhook.py` lines
43-74): four keyword branches, the last one unconditional. -/
def get_quick_response (bot : RBot) (user_input : List Char) : List Char :=
  if rbPositiveWords.any (fun w => isSubstrOf w user_input) then
    (rbPositiveResponses.getD (bot.exchange_count % 3) [])
  else if rbNegativeWords.any (fun w => isSubstrOf w user_input) then
    (if 2 ≤ bot.exchange_count then rbNegativeResponses.getD 2 []
     else rbNegativeResponses.getD (bot.exchange_count % 2) [])
  else if rbQuestionWords.any (fun w => isSubstrOf w user_input) then
    rbQuestionReply
  else
    rbDefaultReply

/-- Python `'.'.join(l)`. -/
def joinDot (l : List (List Char)) : List Char := List.intercalate [(Char.ofNat 46)] l

/-- Python `text.split('.')`. -/
def splitDot (l : List Char) : List (List Char) := List.splitOn (Char.ofNat 46) l

/-- The generative branch of `generate_response` (`twilio_webhook.py` lines
85-113) applied to the text the model returned: `.strip()`, then if longer
than 200 characters keep the first two `'.'`-separated sentences and append a
period. -/
def geminiPostprocess (text : List Char) : List Char :=
  let response := pyStrip text
  if 200 < response.length then joinDot ((splitDot response).take 2) ++ ['.']
  else response

/-- `ReliableVoiceAssistant.generate_response` (`twilio_webhook.py` lines
76-117).  `gemini` is the outcome of `model.generate_content(prompt).text`:
`some t` when the call returns `t`, `none` when it raises (the `except`
branch then retries `get_quick_response` on the literal input "default"). -/
def generate_response (bot : RBot) (user_input : List Char)
    (gemini : Option (List Char)) : List Char :=
  let quick_response := get_quick_response bot user_input
  if quick_response ≠ [] then quick_response
  else
    match gemini with
    | some t => geminiPostprocess t
    | none => get_quick_response bot (s2l "default")

/-- `clean_for_speech` (`twilio_webhook.py` lines 119-136): the replacement
dictionary applied in insertion order. -/
def clean_for_speech (text : List Char) : List Char :=
  [(s2l "AED", s2l "Arab Emirates Dirham"),
   (s2l "ROI", s2l "return on investment"),
   (s2l "AI", s2l "A.I."),
   (s2l "3.3M", s2l "3.3 million"),
   (s2l "1.2M", s2l "1.2 million"),
   (s2l "2.1M", s2l "2.1 million"),
   (s2l "%", s2l " percent"),
   (s2l "&", s2l " and "),
   (s2l "vs", s2l "versus")].foldl (fun acc pr => replaceAll pr.1 pr.2 acc) text

/-- The `sessions` dict of `twilio_webhook.py` (call sid to bot state). -/
abbrev RStore := List (String × RBot)

/-- Lookup in the `sessions` dict (`call_sid in sessions` / `sessions[call_sid]`). -/
def rstoreGet (store : RStore) (call_sid : String) : Option RBot :=
  (store.find? (fun p => p.1 = call_sid)).map Prod.snd

/-- `del sessions[call_sid]`. -/
def rstoreDel (store : RStore) (call_sid : String) : RStore :=
  store.filter (fun p => ¬ p.1 = call_sid)

/-- In-place mutation of the bot object stored under the sid. -/
def rstoreSet (store : RStore) (call_sid : String) (bot : RBot) : RStore :=
  store.map (fun p => if p.1 = call_sid then (p.1, bot) else p)

/-- Exit phrases of the `/process` route (`twilio_webhook.py` line 208). -/
def rbExitPhrases : List (List Char) :=
  [s2l "not interested", s2l "don't call", s2l "remove me", s2l "stop calling"]

/-- Strong positive phrases of the `/process` route (`twilio_webhook.py` line 215). -/
def rbStrongPositivePhrases : List (List Char) :=
  [s2l "very interested", s2l "let's do it", s2l "send information", s2l "connect me"]

/-- The wrap-up `final_message` (`twilio_webhook.py` line 228). -/
def rbFinalMessage : List Char :=
  s2l "I can see you need time to consider this. Our senior advisor will send you detailed information and follow up personally. Thank you for your time!"

/-- Observable end state of one `twilio_webhook.py` `/process` request. -/
structure RProcOut where
  result : TurnResult
  store : RStore
  bot : Option RBot
deriving DecidableEq

/-- The `/process` route of `app/twilio_webhook.py` (lines 174-252).
`gemini` parameterizes the (unreachable) generative branch of
`generate_response`. -/
def twProcess (store : RStore) (call_sid : String) (speechResult : Option (List Char))
    (gemini : Option (List Char)) : RProcOut :=
  match rstoreGet store call_sid with
  | none => ⟨⟨s2l "Session expired. Please call back.", false⟩, store, none⟩
  | some bot =>
    let user_input := pyLower (speechResult.getD [])
    if pyStrip user_input = [] then
      if bot.exchange_count = 0 then
        ⟨⟨s2l "I didn't catch that. Are you interested in hearing about maximizing your property returns?", true⟩,
          store, some bot⟩
      else
        ⟨⟨s2l "I'm having trouble hearing you. Our senior advisor will call you back within 24 hours. Thank you!", false⟩,
          rstoreDel store call_sid, some bot⟩
    else
      let bot1 : RBot := { bot with exchange_count := bot.exchange_count + 1 }
      let store1 := rstoreSet store call_sid bot1
      if rbExitPhrases.any (fun w => isSubstrOf w user_input) then
        ⟨⟨s2l "I understand. You'll be removed from our calling list. Have a great day!", false⟩,
          rstoreDel store1 call_sid, some bot1⟩
      else if rbStrongPositivePhrases.any (fun w => isSubstrOf w user_input) then
        ⟨⟨s2l "Excellent! I'll send you detailed investment projections via WhatsApp and have our senior advisor contact you within 24 hours with specific opportunities. Thank you!", false⟩,
          rstoreDel store1 call_sid, some bot1⟩
      else
        let reply := generate_response bot1 user_input gemini
        let clean_reply := clean_for_speech reply
        if 4 ≤ bot1.exchange_count then
          ⟨⟨clean_for_speech rbFinalMessage, false⟩, rstoreDel store1 call_sid, some bot1⟩
        else
          ⟨⟨clean_reply, true⟩, store1, some bot1⟩

example :
    (twProcess [("CB1", ⟨0, false, false⟩)] "CB1" (some (s2l "how does it work")) none).result.say
      = clean_for_speech rbQuestionReply := by decide

example :
    (twProcess [("CB1", ⟨3, false, false⟩)] "CB1" (some (s2l "hmm maybe")) none).result =
      ⟨clean_for_speech rbFinalMessage, false⟩ := by decide

/-! ### Helper lemmas -/

theorem find_key_filter_eq_none {α : Type} (l : List (String × α)) (sid : String) :
    (l.filter (fun p => ¬ p.1 = sid)).find? (fun p => p.1 = sid) = none := by
  rw [List.find?_eq_none]
  intro x hx
  rw [List.mem_filter] at hx
  simpa using hx.2

theorem get_session_clear_session (store : Store) (sid : String) :
    get_session (clear_session store sid) sid = none := by
  unfold get_session clear_session
  rw [find_key_filter_eq_none]
  rfl

theorem rstoreGet_rstoreDel (store : RStore) (sid : String) :
    rstoreGet (rstoreDel store sid) sid = none := by
  unfold rstoreGet rstoreDel
  rw [find_key_filter_eq_none]
  rfl

theorem get_session_eq_none_of_forall (store : Store) (sid : String)
    (h : ∀ p ∈ store, p.1 ≠ sid) : get_session store sid = none := by
  unfold get_session
  have hf : store.find? (fun p => p.1 = sid) = none := by
    rw [List.find?_eq_none]
    intro x hx
    simpa using h x hx
  rw [hf]
  rfl

theorem generate_fast_response_ne_nil (user_input intent : List Char) :
    generate_fast_response user_input intent ≠ [] := by
  unfold generate_fast_response
  split
  · decide
  split
  · decide
  split
  · decide
  · decide

/-! ### Claim theorems -/

/-- C2: `handle_intents` lower-cases the utterance and returns
`strong_confirm` when any confirm keyword is a substring, else
`strong_reject` when any reject keyword is a substring, else `neutral`;
when both a confirm and a reject keyword occur it returns `strong_confirm`,
and its result is always one of the three enumeration values. -/
theorem C2_classify_keyword_policy (text : List Char) :
    (confirmKeywords.any (fun w => isSubstrOf w (pyLower text)) = true →
      handle_intents text = s2l "strong_confirm") ∧
    (confirmKeywords.any (fun w => isSubstrOf w (pyLower text)) = false →
      rejectKeywords.any (fun w => isSubstrOf w (pyLower text)) = true →
      handle_intents text = s2l "strong_reject") ∧
    (confirmKeywords.any (fun w => isSubstrOf w (pyLower text)) = false →
      rejectKeywords.any (fun w => isSubstrOf w (pyLower text)) = false →
      handle_intents text = s2l "neutral") ∧
    (confirmKeywords.any (fun w => isSubstrOf w (pyLower text)) = true →
      rejectKeywords.any (fun w => isSubstrOf w (pyLower text)) = true →
      handle_intents text = s2l "strong_confirm") ∧
    (handle_intents text = s2l "strong_confirm" ∨
      handle_intents text = s2l "strong_reject" ∨
      handle_intents text = s2l "neutral") := by
  unfold handle_intents
  by_cases hc : confirmKeywords.any (fun w => isSubstrOf w (pyLower text)) = true
  · simp [hc]
  · rw [Bool.not_eq_true] at hc
    by_cases hr : rejectKeywords.any (fun w => isSubstrOf w (pyLower text)) = true
    · simp [hc, hr]
    · rw [Bool.not_eq_true] at hr
      simp [hc, hr]

/-- C2 witness: an utterance holding both the confirm keyword "yes" and the
reject keyword "no" classifies as `strong_confirm`. -/
theorem C2_classify_keyword_policy_witness :
    handle_intents (s2l "Yes and no") = s2l "strong_confirm" :=
  (C2_classify_keyword_policy (s2l "Yes and no")).1 (by decide)

/-- C3: when the Reply Generator (`generate_fast_response`) completes, the
combination policy appends a non-empty lookup result after a single space,
and returns exactly the generator output when the lookup result is absent or
empty; the generator's output is never empty, so the fallback branch is not
taken. -/
theorem C3_combination_policy (user_input intent ctx : List Char) :
    (ctx ≠ [] →
      combineReply (some (generate_fast_response user_input intent)) (some ctx)
        = generate_fast_response user_input intent ++ ' ' :: ctx) ∧
    (combineReply (some (generate_fast_response user_input intent)) (some [])
        = generate_fast_response user_input intent) ∧
    (combineReply (some (generate_fast_response user_input intent)) none
        = generate_fast_response user_input intent) := by
  obtain ⟨c, m, hcm⟩ : ∃ c m, generate_fast_response user_input intent = c :: m := by
    cases h : generate_fast_response user_input intent with
    | nil => exact absurd h (generate_fast_response_ne_nil _ _)
    | cons c m => exact ⟨c, m, rfl⟩
  rw [hcm]
  refine ⟨fun hctx => ?_, rfl, rfl⟩
  cases ctx with
  | nil => exact absurd rfl hctx
  | cons d r => rfl

/-- C3 witness: the neutral template combined with the dummy knowledge-base
snippet is the two texts joined by one space. -/
theorem C3_combination_policy_witness :
    combineReply
      (some (generate_fast_response (s2l "hello") (s2l "neutral")))
      (some (s2l "Based on Dubai market trends, properties have shown steady ROI growth."))
    = generate_fast_response (s2l "hello") (s2l "neutral")
        ++ ' ' :: s2l "Based on Dubai market trends, properties have shown steady ROI growth." :=
  (C3_combination_policy (s2l "hello") (s2l "neutral")
    (s2l "Based on Dubai market trends, properties have shown steady ROI growth.")).1
    (by decide)

/-- C4: the reply text after the truncation step never exceeds 300 characters
(`max_reply_chars`), and when the combined text exceeds 300 the result is the
text cut to 297 characters with a period appended, so it ends in a period. -/
theorem C4_truncation_bound (reply : List Char) :
    (truncateReply reply).length ≤ 300 ∧
    (300 < reply.length →
      truncateReply reply = reply.take 297 ++ ['.'] ∧
      (truncateReply reply).getLast? = some '.') := by
  unfold truncateReply
  by_cases h : 300 < reply.length
  · rw [if_pos h]
    refine ⟨?_, fun _ => ⟨rfl, ?_⟩⟩
    · simp only [List.length_append, List.length_take, List.length_cons,
        List.length_nil]
      omega
    · simp
  · rw [if_neg h]
    exact ⟨by omega, fun h300 => absurd h300 h⟩

/-- C4 witness: a 301-character reply is cut to 297 characters plus a period,
hence 298 characters ending in a period. -/
theorem C4_truncation_bound_witness :
    (truncateReply (List.replicate 301 'a')).length ≤ 300 ∧
    truncateReply (List.replicate 301 'a') = (List.replicate 301 'a').take 297 ++ ['.'] ∧
    (truncateReply (List.replicate 301 'a')).getLast? = some '.' :=
  ⟨(C4_truncation_bound (List.replicate 301 'a')).1,
    (C4_truncation_bound (List.replicate 301 'a')).2 (by decide)⟩

/-- C10: `get_quick_response` returns a non-empty string on every input (the
default branch always produces text), so `generate_response` always equals
`get_quick_response` and its generative-model branch is unreachable. -/
theorem C10_quick_response_total (bot : RBot) (user_input : List Char) :
    get_quick_response bot user_input ≠ [] ∧
    ∀ gemini, generate_response bot user_input gemini
        = get_quick_response bot user_input := by
  have h1 : get_quick_response bot user_input ≠ [] := by
    unfold get_quick_response
    split
    · have h3 : bot.exchange_count % 3 = 0 ∨ bot.exchange_count % 3 = 1 ∨
          bot.exchange_count % 3 = 2 := by omega
      rcases h3 with h | h | h <;> rw [h] <;> decide
    split
    · split
      · decide
      · have h2 : bot.exchange_count % 2 = 0 ∨ bot.exchange_count % 2 = 1 := by omega
        rcases h2 with h | h <;> rw [h] <;> decide
    split
    · decide
    · decide
  refine ⟨h1, fun gemini => ?_⟩
  unfold generate_response
  rw [if_pos h1]

/-- C1: on a non-decisive turn, when the Reply Generator times out,
`/process` speaks exactly `FALLBACK_REPLY`, whether the Knowledge Lookup
completed in time or timed out, and whatever it returned. -/
theorem C1_generation_timeout_fallback (store : Store) (sid : String)
    (speech : Option (List Char)) (ragO : FOutcome) (ragText : List Char)
    (sess : Session)
    (hsess : get_session store sid = some sess)
    (hne : pyLower (pyStrip (speech.getD [])) ≠ [])
    (hconf : handle_intents (pyLower (pyStrip (speech.getD []))) ≠ s2l "strong_confirm")
    (hrej : handle_intents (pyLower (pyStrip (speech.getD []))) ≠ s2l "strong_reject")
    (hrag : ragO ≠ FOutcome.fails) :
    (mainProcess store sid speech FOutcome.timesOut ragO ragText).result.say
      = FALLBACK_REPLY := by
  have hout : mainProcess store sid speech FOutcome.timesOut ragO ragText
      = ⟨⟨clean_text_for_tts (truncateReply FALLBACK_REPLY), true⟩, store, some sess⟩ := by
    unfold mainProcess
    rw [hsess]
    simp [hne, hconf, hrej, hrag, combineReply]
  rw [hout]
  show clean_text_for_tts (truncateReply FALLBACK_REPLY) = FALLBACK_REPLY
  decide

/-- C1 witness: the timeout scenario of `tests/test_process_timeout.py`. -/
theorem C1_generation_timeout_fallback_witness :
    (mainProcess [("CA123TIMEOUT", ⟨0, 0⟩)] "CA123TIMEOUT"
      (some (s2l "Tell me about ROI")) FOutcome.timesOut FOutcome.completes
      (s2l "Based on Dubai market trends, properties have shown steady ROI growth.")).result.say
      = FALLBACK_REPLY :=
  C1_generation_timeout_fallback [("CA123TIMEOUT", ⟨0, 0⟩)] "CA123TIMEOUT"
    (some (s2l "Tell me about ROI")) FOutcome.completes
    (s2l "Based on Dubai market trends, properties have shown steady ROI growth.")
    ⟨0, 0⟩ (by decide) (by decide) (by decide) (by decide) (by decide)

/-- C5: on a `strong_confirm` (resp. `strong_reject`) turn, `/process`
raises the confirm-strength (resp. reject-strength) counter of the bot by 2,
speaks the fixed positive (resp. negative) closing reply with no further
`Gather`, and deletes the session, so that any later `/process` request under
the same call sid gets the session-expired response. -/
theorem C5_decisive_closing (store : Store) (sid : String)
    (speech : Option (List Char)) (genO ragO : FOutcome) (ragText : List Char)
    (sess : Session)
    (hsess : get_session store sid = some sess)
    (hne : pyLower (pyStrip (speech.getD [])) ≠ []) :
    (handle_intents (pyLower (pyStrip (speech.getD []))) = s2l "strong_confirm" →
      (mainProcess store sid speech genO ragO ragText).result
          = ⟨clean_text_for_tts confirmCloseSay, false⟩ ∧
      (mainProcess store sid speech genO ragO ragText).bot
          = some { sess with confirm_count := sess.confirm_count + 2 } ∧
      get_session (mainProcess store sid speech genO ragO ragText).store sid = none ∧
      (∀ speech2 genO2 ragO2 ragText2,
        (mainProcess (mainProcess store sid speech genO ragO ragText).store sid
            speech2 genO2 ragO2 ragText2).result = ⟨sessionExpiredSay, false⟩)) ∧
    (handle_intents (pyLower (pyStrip (speech.getD []))) = s2l "strong_reject" →
      (mainProcess store sid speech genO ragO ragText).result
          = ⟨clean_text_for_tts rejectCloseSay, false⟩ ∧
      (mainProcess store sid speech genO ragO ragText).bot
          = some { sess with reject_count := sess.reject_count + 2 } ∧
      get_session (mainProcess store sid speech genO ragO ragText).store sid = none ∧
      (∀ speech2 genO2 ragO2 ragText2,
        (mainProcess (mainProcess store sid speech genO ragO ragText).store sid
            speech2 genO2 ragO2 ragText2).result = ⟨sessionExpiredSay, false⟩)) := by
  constructor
  · intro hsc
    have hout : mainProcess store sid speech genO ragO ragText
        = ⟨⟨clean_text_for_tts confirmCloseSay, false⟩, clear_session store sid,
            some { sess with confirm_count := sess.confirm_count + 2 }⟩ := by
      unfold mainProcess
      rw [hsess]
      simp [hne, hsc]
    rw [hout]
    refine ⟨rfl, rfl, get_session_clear_session store sid, fun s2 g2 r2 t2 => ?_⟩
    show (mainProcess (clear_session store sid) sid s2 g2 r2 t2).result
        = ⟨sessionExpiredSay, false⟩
    unfold mainProcess
    rw [get_session_clear_session]
  · intro hsr
    have hnc : ¬ (s2l "strong_reject" = s2l "strong_confirm") := by decide
    have hout : mainProcess store sid speech genO ragO ragText
        = ⟨⟨clean_text_for_tts rejectCloseSay, false⟩, clear_session store sid,
            some { sess with reject_count := sess.reject_count + 2 }⟩ := by
      unfold mainProcess
      rw [hsess]
      simp [hne, hsr, hnc]
    rw [hout]
    refine ⟨rfl, rfl, get_session_clear_session store sid, fun s2 g2 r2 t2 => ?_⟩
    show (mainProcess (clear_session store sid) sid s2 g2 r2 t2).result
        = ⟨sessionExpiredSay, false⟩
    unfold mainProcess
    rw [get_session_clear_session]

/-- C5 witness: the utterance "yes, I am interested" confirms, the counter
goes from 0 to 2, the session is gone, and a second request expires. -/
theorem C5_decisive_closing_witness :
    (mainProcess [("CA1", ⟨0, 0⟩)] "CA1" (some (s2l "yes, I am interested"))
        FOutcome.completes FOutcome.completes (s2l "ctx")).result
      = ⟨clean_text_for_tts confirmCloseSay, false⟩ ∧
    (mainProcess [("CA1", ⟨0, 0⟩)] "CA1" (some (s2l "yes, I am interested"))
        FOutcome.completes FOutcome.completes (s2l "ctx")).bot = some ⟨2, 0⟩ ∧
    get_session (mainProcess [("CA1", ⟨0, 0⟩)] "CA1" (some (s2l "yes, I am interested"))
        FOutcome.completes FOutcome.completes (s2l "ctx")).store "CA1" = none ∧
    (∀ speech2 genO2 ragO2 ragText2,
      (mainProcess (mainProcess [("CA1", ⟨0, 0⟩)] "CA1" (some (s2l "yes, I am interested"))
          FOutcome.completes FOutcome.completes (s2l "ctx")).store "CA1"
          speech2 genO2 ragO2 ragText2).result = ⟨sessionExpiredSay, false⟩) :=
  (C5_decisive_closing [("CA1", ⟨0, 0⟩)] "CA1" (some (s2l "yes, I am interested"))
    FOutcome.completes FOutcome.completes (s2l "ctx") ⟨0, 0⟩
    (by decide) (by decide)).1 (by decide)

/-- C7: when the generation future or the retrieval future raises on a
non-decisive turn, the outer except of `/process` answers with the
technical-issue line and a hangup, deletes the session, and the bot's
counters are untouched. -/
theorem C7_error_boundary (store : Store) (sid : String)
    (speech : Option (List Char)) (genO ragO : FOutcome) (ragText : List Char)
    (sess : Session)
    (hsess : get_session store sid = some sess)
    (hne : pyLower (pyStrip (speech.getD [])) ≠ [])
    (hconf : handle_intents (pyLower (pyStrip (speech.getD []))) ≠ s2l "strong_confirm")
    (hrej : handle_intents (pyLower (pyStrip (speech.getD []))) ≠ s2l "strong_reject")
    (hfail : genO = FOutcome.fails ∨ ragO = FOutcome.fails) :
    (mainProcess store sid speech genO ragO ragText).result = ⟨techIssueSay, false⟩ ∧
    get_session (mainProcess store sid speech genO ragO ragText).store sid = none ∧
    (mainProcess store sid speech genO ragO ragText).bot = some sess := by
  have hout : mainProcess store sid speech genO ragO ragText
      = ⟨⟨techIssueSay, false⟩, clear_session store sid, some sess⟩ := by
    unfold mainProcess
    rw [hsess]
    by_cases hgf : genO = FOutcome.fails
    · simp [hne, hconf, hrej, hgf]
    · have hrf : ragO = FOutcome.fails := hfail.resolve_left hgf
      simp [hne, hconf, hrej, hgf, hrf]
  rw [hout]
  exact ⟨rfl, get_session_clear_session store sid, rfl⟩

/-- C7 witness: a raising generation future on a neutral turn yields the
technical-issue hangup, session deletion, and unchanged counters. -/
theorem C7_error_boundary_witness :
    (mainProcess [("CA1", ⟨1, 1⟩)] "CA1" (some (s2l "hello"))
        FOutcome.fails FOutcome.completes (s2l "ctx")).result = ⟨techIssueSay, false⟩ ∧
    get_session (mainProcess [("CA1", ⟨1, 1⟩)] "CA1" (some (s2l "hello"))
        FOutcome.fails FOutcome.completes (s2l "ctx")).store "CA1" = none ∧
    (mainProcess [("CA1", ⟨1, 1⟩)] "CA1" (some (s2l "hello"))
        FOutcome.fails FOutcome.completes (s2l "ctx")).bot = some ⟨1, 1⟩ :=
  C7_error_boundary [("CA1", ⟨1, 1⟩)] "CA1" (some (s2l "hello"))
    FOutcome.fails FOutcome.completes (s2l "ctx") ⟨1, 1⟩
    (by decide) (by decide) (by decide) (by decide) (Or.inl rfl)

/-- C8: `get_session` is total and explicit about absence: it returns `none`
for a sid with no entry and after `clear_session`, and a `/process` request
for an absent sid answers the session-expired closing response without
touching the store. -/
theorem C8_session_absent (store : Store) (sid : String)
    (speech : Option (List Char)) (genO ragO : FOutcome) (ragText : List Char) :
    get_session (clear_session store sid) sid = none ∧
    ((∀ p ∈ store, p.1 ≠ sid) → get_session store sid = none) ∧
    (get_session store sid = none →
      (mainProcess store sid speech genO ragO ragText).result
          = ⟨sessionExpiredSay, false⟩ ∧
      (mainProcess store sid speech genO ragO ragText).store = store) := by
  refine ⟨get_session_clear_session store sid,
    get_session_eq_none_of_forall store sid, fun hnone => ?_⟩
  have hout : mainProcess store sid speech genO ragO ragText
      = ⟨⟨sessionExpiredSay, false⟩, store, none⟩ := by
    unfold mainProcess
    rw [hnone]
  rw [hout]
  exact ⟨rfl, rfl⟩

/-- C8 witness: an unknown sid on a store holding another call. -/
theorem C8_session_absent_witness :
    get_session (clear_session [("CA2", (⟨0, 0⟩ : Session))] "CA1") "CA1" = none ∧
    get_session [("CA2", (⟨0, 0⟩ : Session))] "CA1" = none ∧
    (mainProcess [("CA2", ⟨0, 0⟩)] "CA1" (some (s2l "hello"))
        FOutcome.completes FOutcome.completes (s2l "ctx")).result
      = ⟨sessionExpiredSay, false⟩ ∧
    (mainProcess [("CA2", ⟨0, 0⟩)] "CA1" (some (s2l "hello"))
        FOutcome.completes FOutcome.completes (s2l "ctx")).store
      = [("CA2", ⟨0, 0⟩)] := by
  have h := C8_session_absent [("CA2", (⟨0, 0⟩ : Session))] "CA1" (some (s2l "hello"))
    FOutcome.completes FOutcome.completes (s2l "ctx")
  exact ⟨h.1, h.2.1 (by decide), h.2.2 (by decide)⟩

/-- C9: an utterance that is empty after trimming makes `/process` answer the
re-prompt with a further `Gather` and leaves the store and the bot exactly as
they were; in `main.py` this holds on every turn, in `twilio_webhook.py` on a
first turn (exchange counter still 0). -/
theorem C9_empty_utterance_reprompt (store : Store) (rstore : RStore) (sid : String)
    (speech : Option (List Char)) (genO ragO : FOutcome) (ragText : List Char)
    (sess : Session) (rbot : RBot) (gemini : Option (List Char)) :
    (get_session store sid = some sess →
      pyLower (pyStrip (speech.getD [])) = [] →
      mainProcess store sid speech genO ragO ragText
        = ⟨⟨repeatSay, true⟩, store, some sess⟩) ∧
    (rstoreGet rstore sid = some rbot →
      rbot.exchange_count = 0 →
      pyStrip (pyLower (speech.getD [])) = [] →
      twProcess rstore sid speech gemini
        = ⟨⟨s2l "I didn't catch that. Are you interested in hearing about maximizing your property returns?", true⟩,
            rstore, some rbot⟩) := by
  constructor
  · intro hsess hemp
    unfold mainProcess
    rw [hsess]
    simp [hemp]
  · intro hbot h0 hemp
    unfold twProcess
    rw [hbot]
    simp [hemp, h0]

/-- C9 witness: a whitespace-only utterance on a fresh session re-prompts in
both handlers and mutates nothing. -/
theorem C9_empty_utterance_reprompt_witness :
    mainProcess [("CA1", ⟨0, 0⟩)] "CA1" (some (s2l "  "))
        FOutcome.completes FOutcome.completes (s2l "ctx")
      = ⟨⟨repeatSay, true⟩, [("CA1", ⟨0, 0⟩)], some ⟨0, 0⟩⟩ ∧
    twProcess [("CB1", ⟨0, false, false⟩)] "CB1" (some (s2l "  ")) none
      = ⟨⟨s2l "I didn't catch that. Are you interested in hearing about maximizing your property returns?", true⟩,
          [("CB1", ⟨0, false, false⟩)], some ⟨0, false, false⟩⟩ :=
  ⟨(C9_empty_utterance_reprompt [("CA1", ⟨0, 0⟩)] [("CB1", ⟨0, false, false⟩)] "CA1"
      (some (s2l "  ")) FOutcome.completes FOutcome.completes (s2l "ctx")
      ⟨0, 0⟩ ⟨0, false, false⟩ none).1 (by decide) (by decide),
    (C9_empty_utterance_reprompt [("CA1", ⟨0, 0⟩)] [("CB1", ⟨0, false, false⟩)] "CB1"
      (some (s2l "  ")) FOutcome.completes FOutcome.completes (s2l "ctx")
      ⟨0, 0⟩ ⟨0, false, false⟩ none).2 (by decide) (by decide) (by decide)⟩

/-- C6 counterexample: the claim also names the `/process` orchestrator of
`app/main.py` as its subject, but that handler maintains no exchange counter
at all (`OptimizedVoiceAssistant` has only the two strength counters): ten
consecutive non-empty neutral turns leave the session dictionary exactly as
it was, nothing is incremented, and the turn after them still answers with
continuation true, so no configured ceiling ever wraps the call up there. -/
theorem C6_counterexample :
    (Nat.iterate
        (fun s => (mainProcess s "CA1" (some (s2l "hello"))
          FOutcome.completes FOutcome.completes (s2l "ctx")).store)
        10 [("CA1", (⟨0, 0⟩ : Session))])
      = [("CA1", (⟨0, 0⟩ : Session))] ∧
    (mainProcess [("CA1", (⟨0, 0⟩ : Session))] "CA1" (some (s2l "hello"))
        FOutcome.completes FOutcome.completes (s2l "ctx")).result.continues = true ∧
    (mainProcess [("CA1", (⟨0, 0⟩ : Session))] "CA1" (some (s2l "hello"))
        FOutcome.completes FOutcome.completes (s2l "ctx")).bot
      = some (⟨0, 0⟩ : Session) := by
  refine ⟨?_, by decide, by decide⟩
  have hstep : (mainProcess [("CA1", (⟨0, 0⟩ : Session))] "CA1" (some (s2l "hello"))
      FOutcome.completes FOutcome.completes (s2l "ctx")).store
      = [("CA1", (⟨0, 0⟩ : Session))] := by decide
  show Nat.iterate _ 10 _ = _
  simp only [Function.iterate_succ_apply, hstep, Function.iterate_zero_apply]

/-- C6 amended: in the `twilio_webhook.py` orchestrator, every non-empty turn
raises the session's exchange counter by one, and a turn that reaches the
reply-generation step with the counter at the ceiling of 4 has its generated
reply overridden by the wrap-up closing line, answers with no further
`Gather`, and deletes the session. -/
theorem C6_exchange_ceiling (store : RStore) (sid : String)
    (speech : Option (List Char)) (gemini : Option (List Char)) (bot : RBot)
    (hbot : rstoreGet store sid = some bot)
    (hne : pyStrip (pyLower (speech.getD [])) ≠ []) :
    (twProcess store sid speech gemini).bot
        = some { bot with exchange_count := bot.exchange_count + 1 } ∧
    (rbExitPhrases.any (fun w => isSubstrOf w (pyLower (speech.getD []))) = false →
      rbStrongPositivePhrases.any (fun w => isSubstrOf w (pyLower (speech.getD []))) = false →
      4 ≤ bot.exchange_count + 1 →
      (twProcess store sid speech gemini).result
          = ⟨clean_for_speech rbFinalMessage, false⟩ ∧
      rstoreGet (twProcess store sid speech gemini).store sid = none) := by
  constructor
  · unfold twProcess
    rw [hbot]
    by_cases hex : rbExitPhrases.any (fun w => isSubstrOf w (pyLower (speech.getD []))) = true
    · simp [hne, hex]
    · rw [Bool.not_eq_true] at hex
      by_cases hpos : rbStrongPositivePhrases.any
          (fun w => isSubstrOf w (pyLower (speech.getD []))) = true
      · simp [hne, hex, hpos]
      · rw [Bool.not_eq_true] at hpos
        by_cases h4 : 4 ≤ bot.exchange_count + 1
        · simp [hne, hex, hpos, h4]
        · simp [hne, hex, hpos, h4]
  · intro hex hpos h4
    have hout : twProcess store sid speech gemini
        = ⟨⟨clean_for_speech rbFinalMessage, false⟩,
            rstoreDel (rstoreSet store sid
              { bot with exchange_count := bot.exchange_count + 1 }) sid,
            some { bot with exchange_count := bot.exchange_count + 1 }⟩ := by
      unfold twProcess
      rw [hbot]
      simp [hne, hex, hpos, h4]
    rw [hout]
    exact ⟨rfl, rstoreGet_rstoreDel _ sid⟩

/-- C6 witness: the fourth non-empty exchange of a call ("hmm maybe", no exit
or strong-positive phrase) is wrapped up: counter goes 3 to 4, the wrap-up
line is spoken, the call ends and the session is gone. -/
theorem C6_exchange_ceiling_witness :
    (twProcess [("CB1", ⟨3, false, false⟩)] "CB1" (some (s2l "hmm maybe")) none).bot
        = some ⟨4, false, false⟩ ∧
    (twProcess [("CB1", ⟨3, false, false⟩)] "CB1" (some (s2l "hmm maybe")) none).result
        = ⟨clean_for_speech rbFinalMessage, false⟩ ∧
    rstoreGet (twProcess [("CB1", ⟨3, false, false⟩)] "CB1"
        (some (s2l "hmm maybe")) none).store "CB1" = none := by
  have h := C6_exchange_ceiling [("CB1", ⟨3, false, false⟩)] "CB1"
    (some (s2l "hmm maybe")) none ⟨3, false, false⟩ (by decide) (by decide)
  exact ⟨h.1, (h.2 (by decide) (by decide) (by decide)).1,
    (h.2 (by decide) (by decide) (by decide)).2⟩
